import Mathlib

/-!
Verification of the loctocat OAuth 2.0 device-flow authenticator
(src/loctocat/auth.py) against its natural-language specification.

Shallow embedding: HTTP transport is replaced by explicit lists of
server responses (one response consumed per request issued); exceptions
become explicit result constructors; the mutable fields of an
Authenticator that handler actions may touch (poll_interval, auth_info)
become an explicit state record threaded through the loop.  Handler
actions are modelled as functions on that state record (the Python code
passes the whole Authenticator to the action; the claims under study
only exercise actions reading or mutating poll_interval and auth_info).
The `time.sleep` performed by the default authorization_pending handler
is a temporal effect with no influence on the protocol state, so its
action is the identity on the state record.
-/

namespace Loctocat

/-- Embedding of LoctocatAuthInfo (auth.py lines 44-68).  The
verification_uri field is an Option because the source computes it as
`response.get("verification_uri") or response.get("verification_url")`,
which yields None when both keys are absent. -/
structure AuthInfo where
  device_code : String
  user_code : String
  verification_uri : Option String
  expires_in : Int
  interval : Int
deriving DecidableEq, Repr

/-- The mutable protocol state of an Authenticator that handler actions
can observe and mutate: poll_interval (auth.py line 99) and the current
auth_info (line 101, None until a successful ping). -/
structure AuthState where
  poll_interval : Int
  auth_info : Option AuthInfo
deriving DecidableEq, Repr

/-- Embedding of Handler (auth.py lines 22-41): an error code, an
action taking the Authenticator (here: its mutable state) and a
continue_on_error flag defaulting to True in the source. -/
structure Handler where
  error : String
  action : AuthState → AuthState
  continue_on_error : Bool

/-- A token-endpoint JSON response, as consumed by poll: it may carry
an "error" field and may carry an "access_token" field. -/
structure TokenResponse where
  error : Option String
  access_token : Option String
deriving DecidableEq, Repr

/-- A device-authorization JSON response, as consumed by ping. -/
structure DeviceAuthResponse where
  device_code : Option String
  user_code : Option String
  verification_uri : Option String
  verification_url : Option String
  expires_in : Option Int
  interval : Option Int
deriving DecidableEq, Repr

/-- Outcome of a poll call.  `token` is the normal return; `stopped` is
the silent break (Python returns None) taken when a handler with
continue_on_error = False fires; `serverError` embeds `raise
ServerError(msg)` (ServerError is the exception class imported from
loctocat.exceptions); `keyError` embeds a KeyError on a missing
response field; `stateError` embeds the AttributeError raised by
dereferencing `self.auth_info.device_code` when auth_info is None;
`outOfResponses` marks exhaustion of the scheduled response list, i.e.
the point past which the unbounded source loop would keep requesting. -/
inductive PollResult where
  | token (t : String)
  | stopped
  | serverError (msg : String)
  | keyError (field : String)
  | stateError
  | outOfResponses
deriving DecidableEq, Repr

/-- Embedding of the handler lookup in poll (auth.py line 201):
`next((h for h in self._handlers if h.error == response["error"]), None)`. -/
def findHandler (hs : List Handler) (e : String) : Option Handler :=
  hs.find? (fun h => h.error == e)

/-- Loop body of the synchronous Authenticator.poll (auth.py lines
197-211).  `dc` is the device code captured into the request URI before
the loop (line 195): the source computes the URI once, so every request
carries this same device code even if an action mutates auth_info.
Returns the result, the device code used by each request issued (in
order), and the final state. -/
def pollSyncLoop (hs : List Handler) (dc : String) :
    AuthState → List TokenResponse → PollResult × List String × AuthState
  | st, [] => (.outOfResponses, [], st)
  | st, r :: rs =>
    match r.error with
    | some e =>
      match findHandler hs e with
      | some h =>
        let st1 := h.action st
        if h.continue_on_error then
          let rest := pollSyncLoop hs dc st1 rs
          (rest.1, dc :: rest.2.1, rest.2.2)
        else
          (.stopped, [dc], st1)
      | none => (.serverError e, [dc], st)
    | none =>
      match r.access_token with
      | some t => (.token t, [dc], st)
      | none => (.keyError "access_token", [dc], st)

/-- Embedding of the synchronous Authenticator.poll (auth.py lines
186-211).  Line 195 dereferences `self.auth_info.device_code` before
any request is issued; when auth_info is None this raises
(AttributeError on None) — the state error of the spec — so no request
is made and no token returned. -/
def pollSync (hs : List Handler) (st : AuthState) (rs : List TokenResponse) :
    PollResult × List String × AuthState :=
  match st.auth_info with
  | none => (.stateError, [], st)
  | some ai => pollSyncLoop hs ai.device_code st rs

/-- Loop body of AsyncAuthenticator.poll (auth.py lines 345-357).  The
async variant runs the handler action but never consults
continue_on_error (no break/continue: after the action the loop simply
repeats), and its unhandled-error message wraps the raw code in a
sentence. -/
def pollAsyncLoop (hs : List Handler) (dc : String) :
    AuthState → List TokenResponse → PollResult × List String × AuthState
  | st, [] => (.outOfResponses, [], st)
  | st, r :: rs =>
    match r.error with
    | some e =>
      match findHandler hs e with
      | some h =>
        let st1 := h.action st
        let rest := pollAsyncLoop hs dc st1 rs
        (rest.1, dc :: rest.2.1, rest.2.2)
      | none =>
        (.serverError ("The server returned the following error: " ++ e), [dc], st)
    | none =>
      match r.access_token with
      | some t => (.token t, [dc], st)
      | none => (.keyError "access_token", [dc], st)

/-- Embedding of AsyncAuthenticator.poll (auth.py lines 334-357), with
the same URI hoisting (line 343) as the synchronous variant. -/
def pollAsync (hs : List Handler) (st : AuthState) (rs : List TokenResponse) :
    PollResult × List String × AuthState :=
  match st.auth_info with
  | none => (.stateError, [], st)
  | some ai => pollAsyncLoop hs ai.device_code st rs

/-- Python `x or y` on an optional string field: a present non-empty
string is truthy and wins; an absent key (None) or an empty string
falls through to the second operand, which is returned as-is. -/
def pyOrStr : Option String → Option String → Option String
  | some s, y => if s = "" then y else some s
  | none, y => y

/-- A ping failure: the KeyError raised by `response["k"]` when a
required field is absent (auth.py lines 175-179).  The spec calls this
the malformed-response error. -/
inductive PingError where
  | missingField (name : String)
deriving DecidableEq, Repr

/-- Embedding of the response-parsing part of Authenticator.ping
(auth.py lines 174-184): subscripting evaluates the required keys in
the textual order device_code, user_code, expires_in, interval (the
first missing one raises KeyError), while the verification field uses
`.get` on both spellings joined by `or`, never raising.  On success the
new AuthInfo replaces the prior one in the Authenticator state. -/
def ping (st : AuthState) (r : DeviceAuthResponse) :
    Except PingError (AuthInfo × AuthState) :=
  match r.device_code with
  | none => .error (.missingField "device_code")
  | some dc =>
    match r.user_code with
    | none => .error (.missingField "user_code")
    | some uc =>
      let vu := pyOrStr r.verification_uri r.verification_url
      match r.expires_in with
      | none => .error (.missingField "expires_in")
      | some ei =>
        match r.interval with
        | none => .error (.missingField "interval")
        | some iv =>
          let ai : AuthInfo :=
            { device_code := dc, user_code := uc, verification_uri := vu,
              expires_in := ei, interval := iv }
          .ok (ai, { st with auth_info := some ai })

/-- Removal step of attach_handler (auth.py lines 223-226): the `next`
generator finds the first handler with the matching code, and
`list.remove` deletes it; a missing match (StopIteration) leaves the
list unchanged. -/
def removeFirstByCode : List Handler → String → List Handler
  | [], _ => []
  | g :: t, e => if g.error == e then t else g :: removeFirstByCode t e

/-- Embedding of Authenticator.attach_handler (auth.py lines 213-228):
remove the first registered handler with the same error code if one
exists, then append the new handler at the end. -/
def attach_handler (hs : List Handler) (h : Handler) : List Handler :=
  (removeFirstByCode hs h.error) ++ [h]

/-- Action of the default slow_down handler (auth.py line 245): the
lambda body is `ctx.poll_interval == ctx.poll_interval + 5`, a
comparison whose Boolean result is discarded; no attribute is assigned,
so the state is returned unchanged. -/
def slow_down_action (ctx : AuthState) : AuthState :=
  let _discarded : Bool := ctx.poll_interval == ctx.poll_interval + 5
  ctx

/-- Action of the default authorization_pending handler (auth.py line
244): `time.sleep(ctx.auth_info.interval)` suspends the thread but
leaves the protocol state unchanged. -/
def authorization_pending_action (ctx : AuthState) : AuthState :=
  ctx

/-- Embedding of Authenticator._get_default_handlers (auth.py lines
241-246).  Both handlers keep the continue_on_error default of True. -/
def default_handlers : List Handler :=
  [ { error := "authorization_pending", action := authorization_pending_action,
      continue_on_error := true },
    { error := "slow_down", action := slow_down_action,
      continue_on_error := true } ]

/-- The handler registry right after Authenticator.__init__ (auth.py
lines 103-107): starts empty, then each default handler is attached. -/
def initial_handlers : List Handler :=
  default_handlers.foldl attach_handler []

/-- Failures that can escape authenticate: a ping failure or a poll
failure (either kind of exception), plus the fuel artifact of running
out of scheduled responses. -/
inductive AuthFailure where
  | pingFailure (e : PingError)
  | serverError (msg : String)
  | keyError (field : String)
  | stateError
  | outOfResponses
deriving DecidableEq, Repr

/-- Embedding of Authenticator.authenticate (auth.py lines 109-160):
ping, then poll inside the spinner context; whenever poll returns
(whether a token or the silent-stop None) the success branch runs
`sp.succeed(...)` and the poll return value is passed through, while an
exception from ping or poll propagates unchanged.  User-facing prints
and the spinner are cosmetic and carry no protocol data; the Bool in
the result records that the success path (spinner succeed) ran. -/
def authenticate (hs : List Handler) (st : AuthState)
    (pingResp : DeviceAuthResponse) (rs : List TokenResponse) :
    Except AuthFailure (Option String × Bool) :=
  match ping st pingResp with
  | .error e => .error (.pingFailure e)
  | .ok (_, st1) =>
    match pollSync hs st1 rs with
    | (.token t, _, _) => .ok (some t, true)
    | (.stopped, _, _) => .ok (none, true)
    | (.serverError m, _, _) => .error (.serverError m)
    | (.keyError k, _, _) => .error (.keyError k)
    | (.stateError, _, _) => .error .stateError
    | (.outOfResponses, _, _) => .error .outOfResponses

/-! Concrete fixtures used by counterexamples and witnesses. -/

/-- A concrete AuthInfo as ping would store it. -/
def ai0 : AuthInfo :=
  { device_code := "devcode", user_code := "usercode",
    verification_uri := some "https://verify.example", expires_in := 900,
    interval := 5 }

/-- A concrete post-ping Authenticator state with the default poll
interval of 5. -/
def st0 : AuthState := { poll_interval := 5, auth_info := some ai0 }

/-- A token response carrying the slow_down error code. -/
def slowDownResp : TokenResponse := { error := some "slow_down", access_token := none }

/-- A successful token response. -/
def okResp : TokenResponse := { error := none, access_token := some "tok" }

/-- A user-attached handler with continue_on_error = False, as a caller
would register to stop polling on access_denied. -/
def cancel_handler : Handler :=
  { error := "access_denied", action := fun st => st, continue_on_error := false }

/-- The registry of an Authenticator holding the defaults plus the
cancel handler. -/
def c2_handlers : List Handler := attach_handler initial_handlers cancel_handler

/-- Response schedule for the divergence run: one handled error, then a
success. -/
def c2_resps : List TokenResponse :=
  [ { error := some "access_denied", access_token := none }, okResp ]

/-! Claim theorems. -/

/-- C1: the claim says the default slow_down handler increases
poll_interval by exactly 5 and the loop continues.  The loop does
continue (the handler keeps continue_on_error = True), but the action
at auth.py line 245 is the comparison `ctx.poll_interval ==
ctx.poll_interval + 5`, whose result is discarded, so poll_interval is
left unchanged: over the run [slow_down, success] from poll_interval =
5 the final state still holds 5, not the 10 the claim requires.  The
first conjunct shows the action is the identity on every state. -/
theorem c1_slow_down_is_noop :
    (∀ st : AuthState, slow_down_action st = st)
    ∧ pollSync initial_handlers st0 [slowDownResp, okResp]
        = (.token "tok", ["devcode", "devcode"], st0)
    ∧ st0.poll_interval = 5
    ∧ (pollSync initial_handlers st0 [slowDownResp, okResp]).2.2.poll_interval
        ≠ st0.poll_interval + 5 :=
  ⟨fun _ => rfl, rfl, rfl, by decide⟩

/-- C2: the claim says the synchronous and asynchronous poll have
identical protocol semantics for every response schedule and registry.
With the defaults plus a continue_on_error = False handler for
access_denied, on the schedule [access_denied, success] the synchronous
poll stops silently after one request and returns no token, while the
asynchronous poll (which never consults continue_on_error, auth.py
lines 350-357) issues a second request and returns the token; the
unhandled-error payloads also differ (raw code versus wrapped
sentence). -/
theorem c2_sync_async_diverge :
    pollSync c2_handlers st0 c2_resps = (.stopped, ["devcode"], st0)
    ∧ pollAsync c2_handlers st0 c2_resps = (.token "tok", ["devcode", "devcode"], st0)
    ∧ (PollResult.stopped ≠ PollResult.token "tok")
    ∧ pollSync [] st0 [{ error := some "expired_token", access_token := none }]
        = (.serverError "expired_token", ["devcode"], st0)
    ∧ pollAsync [] st0 [{ error := some "expired_token", access_token := none }]
        = (.serverError "The server returned the following error: expired_token",
           ["devcode"], st0)
    ∧ ("expired_token" ≠ "The server returned the following error: expired_token") :=
  ⟨rfl, rfl, by decide, rfl, rfl, by decide⟩

/-- C4: a token response whose error code has no registered handler
makes both polls terminate at once — exactly one request is issued, the
remaining schedule is never consumed — by raising ServerError; the
synchronous payload is the raw error code itself and the asynchronous
payload is a fixed sentence followed by the raw code, so both carry the
raw code from the response. -/
theorem c4_unregistered_error_fatal (hs : List Handler) (st : AuthState)
    (ai : AuthInfo) (rs : List TokenResponse) (r : TokenResponse) (e : String)
    (hai : st.auth_info = some ai) (herr : r.error = some e)
    (hfind : findHandler hs e = none) :
    pollSync hs st (r :: rs) = (.serverError e, [ai.device_code], st)
    ∧ pollAsync hs st (r :: rs)
        = (.serverError ("The server returned the following error: " ++ e),
           [ai.device_code], st) := by
  constructor
  · simp [pollSync, hai, pollSyncLoop, herr, hfind]
  · simp [pollAsync, hai, pollAsyncLoop, herr, hfind]

/-- Witness for C4 at a concrete input: an empty registry and an
expired_token response. -/
theorem c4_witness :
    pollSync [] st0 [{ error := some "expired_token", access_token := none },
      okResp] = (.serverError "expired_token", ["devcode"], st0)
    ∧ pollAsync [] st0 [{ error := some "expired_token", access_token := none },
      okResp] = (.serverError ("The server returned the following error: "
          ++ "expired_token"), ["devcode"], st0) :=
  c4_unregistered_error_fatal [] st0 ai0 [okResp]
    { error := some "expired_token", access_token := none } "expired_token"
    rfl rfl rfl

/-- C8: calling poll while auth_info is absent fails before any request
is issued: line 195 dereferences `self.auth_info.device_code` on None,
raising the state error; the request list is empty and no token is
produced. -/
theorem c8_poll_before_ping_fails (hs : List Handler) (st : AuthState)
    (rs : List TokenResponse) (h : st.auth_info = none) :
    pollSync hs st rs = (.stateError, [], st) := by
  simp [pollSync, h]

/-- Witness for C8: a fresh Authenticator state that never pinged. -/
theorem c8_witness :
    pollSync initial_handlers { poll_interval := 5, auth_info := none } [okResp]
      = (.stateError, [], { poll_interval := 5, auth_info := none }) :=
  c8_poll_before_ping_fails initial_handlers
    { poll_interval := 5, auth_info := none } [okResp] rfl

/-- Helper: a stopped result can only come from a response whose error
code is registered with continue_on_error = False. -/
theorem pollSyncLoop_stopped_source (hs : List Handler) (dc : String) :
    ∀ (rs : List TokenResponse) (st : AuthState) (reqs : List String)
      (stf : AuthState),
      pollSyncLoop hs dc st rs = (.stopped, reqs, stf) →
      ∃ r ∈ rs, ∃ e h, r.error = some e ∧ findHandler hs e = some h
        ∧ h.continue_on_error = false
  | [], st, reqs, stf => by
    intro hrun
    simp [pollSyncLoop] at hrun
  | r :: rs, st, reqs, stf => by
    intro hrun
    unfold pollSyncLoop at hrun
    cases herr : r.error with
    | none =>
      simp only [herr] at hrun
      cases htok : r.access_token with
      | none => simp only [htok] at hrun; simp at hrun
      | some t => simp only [htok] at hrun; simp at hrun
    | some e =>
      simp only [herr] at hrun
      cases hfind : findHandler hs e with
      | none => simp only [hfind] at hrun; simp at hrun
      | some h =>
        cases hc : h.continue_on_error with
        | true =>
          rcases hp : pollSyncLoop hs dc (h.action st) rs with ⟨res, reqs2, stf2⟩
          simp only [hfind, hc, if_true, hp, Prod.mk.injEq] at hrun
          obtain ⟨hres, _, _⟩ := hrun
          rw [hres] at hp
          obtain ⟨r1, hr1, he1⟩ :=
            pollSyncLoop_stopped_source hs dc rs (h.action st) reqs2 stf2 hp
          exact ⟨r1, List.mem_cons_of_mem r hr1, he1⟩
        | false =>
          exact ⟨r, List.mem_cons_self r rs, e, h, herr, hfind, hc⟩

/-- C3: when the next response carries an error code whose registered
handler has continue_on_error = False, poll runs the action and then
breaks out of the loop with the silent stop: no token, no exception,
exactly the one request, the rest of the schedule never consumed
(first conjunct).  Conversely the silent stop only arises that way: any
run of poll that ends stopped contains a response whose error code is
registered with continue_on_error = False (second conjunct), so this is
the sole path out of poll producing neither a token nor an error. -/
theorem c3_silent_stop :
    (∀ (hs : List Handler) (st : AuthState) (ai : AuthInfo)
       (rs : List TokenResponse) (r : TokenResponse) (e : String) (h : Handler),
       st.auth_info = some ai → r.error = some e → findHandler hs e = some h →
       h.continue_on_error = false →
       pollSync hs st (r :: rs) = (.stopped, [ai.device_code], h.action st))
    ∧ (∀ (hs : List Handler) (st : AuthState) (rs : List TokenResponse)
         (reqs : List String) (stf : AuthState),
         pollSync hs st rs = (.stopped, reqs, stf) →
         ∃ r ∈ rs, ∃ e h, r.error = some e ∧ findHandler hs e = some h
           ∧ h.continue_on_error = false) := by
  constructor
  · intro hs st ai rs r e h hai herr hfind hc
    simp [pollSync, hai, pollSyncLoop, herr, hfind, hc]
  · intro hs st rs reqs stf hrun
    unfold pollSync at hrun
    cases hai : st.auth_info with
    | none => rw [hai] at hrun; simp at hrun
    | some ai =>
      rw [hai] at hrun
      exact pollSyncLoop_stopped_source hs ai.device_code rs st reqs stf hrun

/-- Witness for C3: the cancel handler fires on the first response and
poll stops with one request issued. -/
theorem c3_witness :
    pollSync c2_handlers st0
        [{ error := some "access_denied", access_token := none }, okResp]
      = (.stopped, ["devcode"], cancel_handler.action st0) :=
  c3_silent_stop.1 c2_handlers st0 ai0 [okResp]
    { error := some "access_denied", access_token := none } "access_denied"
    cancel_handler rfl rfl rfl rfl

/-- A device-authorization response in which both verification fields
are present but verification_uri is the empty string. -/
def c5_resp : DeviceAuthResponse :=
  { device_code := some "d5", user_code := some "u5",
    verification_uri := some "", verification_url := some "https://fallback",
    expires_in := some 900, interval := some 5 }

/-- The AuthInfo the source actually builds from c5_resp. -/
def c5_stored : AuthInfo :=
  { device_code := "d5", user_code := "u5",
    verification_uri := some "https://fallback", expires_in := 900,
    interval := 5 }

/-- C5 counterexample: every required field of the response is present,
both verification fields included, yet ping does not prefer
verification_uri: the Python `or` at auth.py line 177 treats the
present-but-empty string as falsy and stores verification_url
instead, so the stored field does not match the response field. -/
theorem c5_counterexample :
    ping { poll_interval := 5, auth_info := none } c5_resp
      = .ok (c5_stored, { poll_interval := 5, auth_info := some c5_stored })
    ∧ c5_resp.verification_uri = some ""
    ∧ c5_stored.verification_uri = some "https://fallback"
    ∧ (some "https://fallback" : Option String) ≠ some "" :=
  ⟨rfl, rfl, rfl, by decide⟩

/-- C5 as amended: when the four scalar required fields are present,
ping succeeds with an AuthInfo whose device_code, user_code, expires_in
and interval exactly match the response, whose verification_uri is the
Python `or` of the two verification fields — the response
verification_uri whenever it is present and non-empty, else
verification_url as-is — and the new AuthInfo is stored as the current
auth_info, replacing any prior one. -/
theorem c5_ping_fields (st : AuthState) (r : DeviceAuthResponse)
    (dc uc : String) (ei iv : Int)
    (hdc : r.device_code = some dc) (huc : r.user_code = some uc)
    (hei : r.expires_in = some ei) (hiv : r.interval = some iv) :
    ∃ ai : AuthInfo,
      ping st r = .ok (ai, { st with auth_info := some ai })
      ∧ ai.device_code = dc ∧ ai.user_code = uc
      ∧ ai.expires_in = ei ∧ ai.interval = iv
      ∧ ai.verification_uri = pyOrStr r.verification_uri r.verification_url
      ∧ (∀ v, r.verification_uri = some v → v ≠ "" →
          ai.verification_uri = some v) := by
  refine ⟨{ device_code := dc, user_code := uc,
            verification_uri := pyOrStr r.verification_uri r.verification_url,
            expires_in := ei, interval := iv }, ?_, rfl, rfl, rfl, rfl, rfl, ?_⟩
  · simp [ping, hdc, huc, hei, hiv]
  · intro v hv hne
    simp [hv, pyOrStr, hne]

/-- Witness for C5: a response carrying a non-empty verification_uri
next to a verification_url; the former is preferred and stored. -/
theorem c5_witness :
    ∃ ai : AuthInfo,
      ping { poll_interval := 5, auth_info := some ai0 }
          { device_code := some "dW", user_code := some "uW",
            verification_uri := some "https://primary",
            verification_url := some "https://fallback",
            expires_in := some 600, interval := some 7 }
        = .ok (ai, { poll_interval := 5, auth_info := some ai })
      ∧ ai.device_code = "dW" ∧ ai.user_code = "uW"
      ∧ ai.expires_in = 600 ∧ ai.interval = 7
      ∧ ai.verification_uri
          = pyOrStr (some "https://primary") (some "https://fallback")
      ∧ (∀ v, (some "https://primary" : Option String) = some v → v ≠ "" →
          ai.verification_uri = some v) :=
  c5_ping_fields { poll_interval := 5, auth_info := some ai0 }
    { device_code := some "dW", user_code := some "uW",
      verification_uri := some "https://primary",
      verification_url := some "https://fallback",
      expires_in := some 600, interval := some 7 }
    "dW" "uW" 600 7 rfl rfl rfl rfl

/-- The partially populated AuthInfo stored by ping when both
verification fields are absent from the response. -/
def c6_stored : AuthInfo :=
  { device_code := "d6", user_code := "u6", verification_uri := none,
    expires_in := 900, interval := 5 }

/-- C6 counterexample: a response with every field present except the
two verification fields.  The claim says ping must fail with a
malformed-response error, but `.get` with the `or` chain yields None
without raising, and ping succeeds, storing an AuthInfo whose
verification_uri is absent — a partially populated AuthInfo. -/
theorem c6_counterexample :
    ping { poll_interval := 5, auth_info := none }
        { device_code := some "d6", user_code := some "u6",
          verification_uri := none, verification_url := none,
          expires_in := some 900, interval := some 5 }
      = .ok (c6_stored, { poll_interval := 5, auth_info := some c6_stored })
    ∧ c6_stored.verification_uri = none :=
  ⟨rfl, rfl⟩

/-- C6 as amended: ping fails with a malformed-response error (KeyError
on the subscripted field) exactly when device_code, user_code,
expires_in or interval is absent; absence of the verification fields
alone never makes ping fail — instead an AuthInfo with an absent
verification_uri is constructed and stored. -/
theorem c6_required_fields (st : AuthState) (r : DeviceAuthResponse) :
    (∃ e, ping st r = .error e)
      ↔ (r.device_code = none ∨ r.user_code = none
         ∨ r.expires_in = none ∨ r.interval = none) := by
  obtain ⟨odc, ouc, ovi, ovl, oei, oiv⟩ := r
  cases odc <;> cases ouc <;> cases oei <;> cases oiv <;> simp [ping]

/-- Number of registered handlers carrying a given error code. -/
def countCode (hs : List Handler) (e : String) : Nat :=
  hs.countP (fun h => h.error == e)

/-- Count distributes over registry concatenation. -/
theorem countCode_append (xs ys : List Handler) (e : String) :
    countCode (xs ++ ys) e = countCode xs e + countCode ys e := by
  simp [countCode, List.countP_append]

/-- Removing by a code decrements the count for that code (to zero
stays zero). -/
theorem countCode_removeFirstByCode (e : String) :
    ∀ hs : List Handler, countCode (removeFirstByCode hs e) e = countCode hs e - 1
  | [] => by simp [countCode, removeFirstByCode]
  | g :: t => by
    by_cases hg : g.error == e
    · simp [countCode, removeFirstByCode, hg, List.countP_cons]
    · have ih := countCode_removeFirstByCode e t
      simp only [countCode] at ih
      simp [countCode, removeFirstByCode, hg, List.countP_cons, ih]

/-- Removing by a different code leaves the count for this code
unchanged. -/
theorem countCode_removeFirstByCode_ne (c e : String) (hne : c ≠ e) :
    ∀ hs : List Handler, countCode (removeFirstByCode hs c) e = countCode hs e
  | [] => by simp [countCode, removeFirstByCode]
  | g :: t => by
    by_cases hg : g.error == c
    · have hgc : g.error = c := by simpa using hg
      have hge : (g.error == e) = false := by
        rw [beq_eq_false_iff_ne, hgc]
        exact hne
      simp [countCode, removeFirstByCode, hg, List.countP_cons, hge]
    · have ih := countCode_removeFirstByCode_ne c e hne t
      simp only [countCode] at ih
      simp [countCode, removeFirstByCode, hg, List.countP_cons, ih]

/-- Count after an attach: one removal by the new code, then the new
handler appended. -/
theorem countCode_attach (hs : List Handler) (h : Handler) (e : String) :
    countCode (attach_handler hs h) e
      = countCode (removeFirstByCode hs h.error) e
        + (if h.error == e then 1 else 0) := by
  rw [attach_handler, countCode_append]
  simp [countCode, List.countP_cons]

/-- Attaching preserves the at-most-one-handler-per-code invariant. -/
theorem countCode_attach_le (hs : List Handler) (h : Handler)
    (hu : ∀ e, countCode hs e ≤ 1) : ∀ e, countCode (attach_handler hs h) e ≤ 1 := by
  intro e
  rw [countCode_attach]
  by_cases hc : h.error = e
  · have h1 : countCode (removeFirstByCode hs h.error) e = countCode hs e - 1 := by
      rw [hc]; exact countCode_removeFirstByCode e hs
    have h2 := hu e
    have hc2 : (h.error == e) = true := by simp [hc]
    rw [h1, hc2]
    simp only [if_true]
    omega
  · have h1 : countCode (removeFirstByCode hs h.error) e = countCode hs e :=
      countCode_removeFirstByCode_ne h.error e hc hs
    have h2 := hu e
    have hc2 : (h.error == e) = false := by simp [hc]
    rw [h1, hc2]
    simp only [Bool.false_eq_true, if_false]
    omega

/-- Folding any sequence of attaches over a registry with unique codes
keeps the codes unique. -/
theorem countCode_foldl_attach_le :
    ∀ (l : List Handler) (hs : List Handler),
      (∀ e, countCode hs e ≤ 1) → ∀ e, countCode (l.foldl attach_handler hs) e ≤ 1
  | [], _, hu => hu
  | h :: t, hs, hu =>
    countCode_foldl_attach_le t (attach_handler hs h) (countCode_attach_le hs h hu)

/-- Unfolding step of handler lookup on a nonempty registry. -/
theorem findHandler_cons (g : Handler) (t : List Handler) (e : String) :
    findHandler (g :: t) e = if g.error == e then some g else findHandler t e := by
  rw [findHandler, List.find?_cons]
  cases hg : g.error == e <;> simp [hg, findHandler]

/-- A registry with no handler for a code yields no lookup hit. -/
theorem findHandler_eq_none_of_countCode_zero (e : String) :
    ∀ hs : List Handler, countCode hs e = 0 → findHandler hs e = none
  | [], _ => rfl
  | g :: t, h0 => by
    unfold countCode at h0
    rw [List.countP_cons] at h0
    by_cases hg : g.error == e
    · simp [hg] at h0
    · have ht : countCode t e = 0 := by unfold countCode; omega
      rw [findHandler_cons, if_neg hg]
      exact findHandler_eq_none_of_countCode_zero e t ht

/-- Lookup in a registry whose front has no hit falls to the appended
handler. -/
theorem findHandler_append_single (e : String) (h : Handler) :
    ∀ hs : List Handler, findHandler hs e = none →
      findHandler (hs ++ [h]) e = if h.error == e then some h else none
  | [], _ => by
    rw [List.nil_append, findHandler_cons]
    rfl
  | g :: t, hn => by
    rw [findHandler_cons] at hn
    by_cases hg : g.error == e
    · rw [if_pos hg] at hn
      exact absurd hn (by simp)
    · rw [if_neg hg] at hn
      rw [List.cons_append, findHandler_cons, if_neg hg]
      exact findHandler_append_single e h t hn

/-- C7: starting from the registry built by the constructor (defaults
attached onto the empty list), every sequence of attach_handler calls
leaves at most one handler per error code (first conjunct); and
attaching two handlers with the same error code onto any
unique-code registry leaves exactly one handler for that code, with
lookup returning the second handler — last write wins (second
conjunct). -/
theorem c7_attach_last_write_wins :
    (∀ (attaches : List Handler) (e : String),
       countCode (attaches.foldl attach_handler initial_handlers) e ≤ 1)
    ∧ (∀ (hs : List Handler) (h1 h2 : Handler),
        (∀ e, countCode hs e ≤ 1) → h1.error = h2.error →
        findHandler (attach_handler (attach_handler hs h1) h2) h2.error = some h2
        ∧ countCode (attach_handler (attach_handler hs h1) h2) h2.error = 1) := by
  constructor
  · intro attaches e
    refine countCode_foldl_attach_le attaches initial_handlers ?_ e
    intro e1
    refine countCode_foldl_attach_le default_handlers [] ?_ e1
    intro e2
    simp [countCode]
  · intro hs h1 h2 hu _
    have hu1 : ∀ e, countCode (attach_handler hs h1) e ≤ 1 :=
      countCode_attach_le hs h1 hu
    have hzero : countCode (removeFirstByCode (attach_handler hs h1) h2.error)
        h2.error = 0 := by
      have := countCode_removeFirstByCode h2.error (attach_handler hs h1)
      have := hu1 h2.error
      omega
    have hnone := findHandler_eq_none_of_countCode_zero h2.error
      (removeFirstByCode (attach_handler hs h1) h2.error) hzero
    constructor
    · have hstep := findHandler_append_single h2.error h2
        (removeFirstByCode (attach_handler hs h1) h2.error) hnone
      show findHandler
        (removeFirstByCode (attach_handler hs h1) h2.error ++ [h2]) h2.error
        = some h2
      rw [hstep]
      simp
    · show countCode
        (removeFirstByCode (attach_handler hs h1) h2.error ++ [h2]) h2.error = 1
      rw [countCode_append, hzero]
      simp [countCode, List.countP_cons]

/-- A second handler for the code already used by cancel_handler. -/
def c7_override : Handler :=
  { error := "access_denied",
    action := fun st => { st with poll_interval := st.poll_interval + 1 },
    continue_on_error := true }

/-- Witness for C7: attaching cancel_handler and then c7_override (same
code) onto the empty registry leaves exactly the override active. -/
theorem c7_witness :
    findHandler (attach_handler (attach_handler [] cancel_handler) c7_override)
        c7_override.error = some c7_override
    ∧ countCode (attach_handler (attach_handler [] cancel_handler) c7_override)
        c7_override.error = 1 :=
  c7_attach_last_write_wins.2 [] cancel_handler c7_override
    (fun e => by simp [countCode]) rfl

/-- The AuthInfo held when the poll under C9 starts. -/
def c9_old_ai : AuthInfo :=
  { device_code := "OLD", user_code := "u9",
    verification_uri := some "https://v9", expires_in := 900, interval := 5 }

/-- The replacement AuthInfo installed by the C9 handler action. -/
def c9_new_ai : AuthInfo :=
  { device_code := "NEW", user_code := "u9",
    verification_uri := some "https://v9", expires_in := 900, interval := 5 }

/-- A handler whose action replaces auth_info with c9_new_ai and lets
the loop continue. -/
def c9_swap : Handler :=
  { error := "swap", action := fun st => { st with auth_info := some c9_new_ai },
    continue_on_error := true }

/-- The Authenticator state at entry to the C9 poll. -/
def c9_st : AuthState := { poll_interval := 5, auth_info := some c9_old_ai }

/-- C9 counterexample: the handler replaces auth_info (new device_code
NEW) between the first and second iteration, yet the second request is
still issued with the original device code OLD: the request URI is
built once before the loop (auth.py line 195), so mutations of
auth_info never reach subsequent requests of the same poll call. -/
theorem c9_counterexample :
    pollSync [c9_swap] c9_st
        [{ error := some "swap", access_token := none }, okResp]
      = (.token "tok", ["OLD", "OLD"],
         { poll_interval := 5, auth_info := some c9_new_ai })
    ∧ c9_new_ai.device_code = "NEW"
    ∧ ("OLD" : String) ≠ "NEW" :=
  ⟨rfl, rfl, by decide⟩

/-- Helper: every request issued by the synchronous loop carries the
device code captured before the loop. -/
theorem pollSyncLoop_requests (hs : List Handler) (dc : String) :
    ∀ (rs : List TokenResponse) (st : AuthState) (q : String),
      q ∈ (pollSyncLoop hs dc st rs).2.1 → q = dc
  | [], st, q => by simp [pollSyncLoop]
  | r :: rs, st, q => by
    intro hq
    unfold pollSyncLoop at hq
    cases herr : r.error with
    | none =>
      simp only [herr] at hq
      cases htok : r.access_token with
      | none => simp only [htok] at hq; simpa using hq
      | some t => simp only [htok] at hq; simpa using hq
    | some e =>
      simp only [herr] at hq
      cases hfind : findHandler hs e with
      | none => simp only [hfind] at hq; simpa using hq
      | some h =>
        cases hc : h.continue_on_error with
        | false => simp only [hfind, hc] at hq; simpa using hq
        | true =>
          simp only [hfind, hc, if_true] at hq
          simp only [List.mem_cons] at hq
          rcases hq with hq | hq
          · exact hq
          · exact pollSyncLoop_requests hs dc rs (h.action st) q hq

/-- C9 as amended: poll builds the token request once, at entry, from
the device_code of the AuthInfo held at that moment, and every
iteration reuses it; requests within one poll call therefore all carry
the entry device code, regardless of handler mutations of auth_info. -/
theorem c9_requests_use_entry_device_code (hs : List Handler)
    (st : AuthState) (ai : AuthInfo) (rs : List TokenResponse)
    (hai : st.auth_info = some ai) :
    ∀ q ∈ (pollSync hs st rs).2.1, q = ai.device_code := by
  intro q hq
  unfold pollSync at hq
  rw [hai] at hq
  exact pollSyncLoop_requests hs ai.device_code rs st q hq

/-- Witness for C9 as amended: in the swap run, a request drawn from
the issued-request list carries the entry device code OLD. -/
theorem c9_witness : ("OLD" : String) = c9_old_ai.device_code :=
  c9_requests_use_entry_device_code [c9_swap] c9_st c9_old_ai
    [{ error := some "swap", access_token := none }, okResp] rfl
    "OLD" (by decide)

/-- Device-authorization response used by the C10 run. -/
def c10_pr : DeviceAuthResponse :=
  { device_code := some "dA", user_code := some "uA",
    verification_uri := some "https://vA", verification_url := none,
    expires_in := some 900, interval := some 5 }

/-- The AuthInfo ping builds from c10_pr. -/
def c10_ai : AuthInfo :=
  { device_code := "dA", user_code := "uA",
    verification_uri := some "https://vA", expires_in := 900, interval := 5 }

/-- C10: whenever ping succeeds, authenticate treats the silent stop
exactly like a success at its interface: poll ending stopped makes
authenticate return with no exception, the success path (spinner
succeed) completed, and an absent token — the same shape as a token
return, differing only in the optional value, so a caller that never
inspects the returned value cannot tell cancellation from success. -/
theorem c10_authenticate_silent_stop (hs : List Handler) (st : AuthState)
    (pr : DeviceAuthResponse) (rs : List TokenResponse) (ai : AuthInfo)
    (st1 : AuthState) (reqs : List String) (stf : AuthState)
    (hping : ping st pr = .ok (ai, st1)) :
    (pollSync hs st1 rs = (.stopped, reqs, stf) →
      authenticate hs st pr rs = .ok (none, true))
    ∧ (∀ t, pollSync hs st1 rs = (.token t, reqs, stf) →
      authenticate hs st pr rs = .ok (some t, true)) := by
  constructor
  · intro hpoll
    simp [authenticate, hping, hpoll]
  · intro t hpoll
    simp [authenticate, hping, hpoll]

/-- Witness for C10: a concrete run in which the cancel handler fires;
authenticate returns the success shape with an absent token. -/
theorem c10_witness :
    authenticate c2_handlers { poll_interval := 5, auth_info := none } c10_pr
        [{ error := some "access_denied", access_token := none }]
      = .ok (none, true) :=
  (c10_authenticate_silent_stop c2_handlers
      { poll_interval := 5, auth_info := none } c10_pr
      [{ error := some "access_denied", access_token := none }] c10_ai
      { poll_interval := 5, auth_info := some c10_ai } ["dA"]
      { poll_interval := 5, auth_info := some c10_ai } rfl).1 rfl

end Loctocat
